import Mathlib

/-!
Shallow embedding of the rephrase-paraphraser service
(`src/actions/index.ts` plus the table declarations) in Lean 4.

The service exposes seven operations over two entities, sessions and
variants, persisted in a relational store.  We model the store as a pair
of lists of records, timestamps as naturals, and the database queries
(`select ... where`, `update ... set ... where`, `delete ... where`,
`insert ... returning`) as the corresponding list operations.  The
non-deterministic inputs of the implementation (`crypto.randomUUID()`,
`new Date()`) are passed in as explicit parameters.

Each operation is modelled end to end as
`Ctx → Input → ... → Store → Except ActionError Out × Store`:
the returned store is the persisted state after the call (unchanged on
every error path, since each handler performs at most one write, at the
end).  Following the control flow of the service (authenticate the
caller, then validate the input shape, then resolve ownership, then
perform the persistence operation — the request framework itself is an
external collaborator), authentication is checked first and the zod
input schema attached to each action is checked next, before any access
to the store.
-/

namespace Rephrase

/-- The authenticated caller, `locals.user` in the request context. -/
structure User where
  id : String
  deriving Repr, DecidableEq

/-- The request context: `context.locals.user` is present or absent. -/
structure Ctx where
  user : Option User
  deriving Repr, DecidableEq

/-- `ActionError` with its machine-readable code and message. -/
structure ActionError where
  code : String
  message : String
  deriving Repr, DecidableEq

/-- The error thrown by `requireUser` when no user is in context. -/
def unauthorizedError : ActionError :=
  { code := "UNAUTHORIZED", message := "You must be signed in to perform this action." }

/-- The error thrown by `getOwnedSession` when no owned session matches. -/
def sessionNotFoundError : ActionError :=
  { code := "NOT_FOUND", message := "Rephrase session not found." }

/-- The error thrown when no variant matches both id and sessionId. -/
def variantNotFoundError : ActionError :=
  { code := "NOT_FOUND", message := "Rephrase variant not found." }

/-- The error produced when an input fails its zod schema. -/
def validationError : ActionError :=
  { code := "BAD_REQUEST", message := "Failed to validate: invalid input." }

/-- A row of the `RephraseSessions` table. -/
structure Session where
  id : String
  userId : String
  language : Option String
  context : Option String
  originalText : String
  createdAt : Nat
  updatedAt : Nat
  deriving Repr, DecidableEq

/-- A row of the `RephraseVariants` table. -/
structure Variant where
  id : String
  sessionId : String
  tone : Option String
  complexity : Option String
  variantLabel : Option String
  content : String
  isFavorite : Bool
  createdAt : Nat
  deriving Repr, DecidableEq

/-- The persisted database state: the two tables. -/
structure Store where
  sessions : List Session
  variants : List Variant
  deriving Repr, DecidableEq

/-- The empty database. -/
def emptyStore : Store := { sessions := [], variants := [] }

/-- `requireUser`: extract `locals.user` or throw `UNAUTHORIZED`. -/
def requireUser (ctx : Ctx) : Except ActionError User :=
  match ctx.user with
  | some user => .ok user
  | none => .error unauthorizedError

/-- `getOwnedSession`: `select` from `RephraseSessions` filtered by
`id = sessionId AND userId = userId`; the handler destructures the first
row and throws `NOT_FOUND` if there is none. -/
def getOwnedSession (sessionId : String) (userId : String) (σ : Store) :
    Except ActionError Session :=
  match σ.sessions.find? (fun s => s.id == sessionId && s.userId == userId) with
  | some session => .ok session
  | none => .error sessionNotFoundError

/-! ### Input shapes and their zod validation

Each input structure mirrors the object schema of the action, with
`z.string().optional()` as `Option String` and `z.boolean().optional()`
as `Option Bool`.  The `valid…` function is the runtime content of the
schema: `min(1)` on required strings and the `.refine` cross-field
rules.  `z.boolean().default(false)` is represented as an optional
field defaulted when read. -/

/-- Input of `createSession`. -/
structure CreateSessionInput where
  language : Option String
  context : Option String
  originalText : String
  deriving Repr, DecidableEq

/-- zod schema of `createSession`: `originalText` needs `min(1)`. -/
def validCreateSession (i : CreateSessionInput) : Bool :=
  i.originalText.length ≥ 1

/-- Input of `updateSession`. -/
structure UpdateSessionInput where
  id : String
  language : Option String
  context : Option String
  originalText : Option String
  deriving Repr, DecidableEq

/-- zod schema of `updateSession`: `id` needs `min(1)` and the refine
rule requires at least one of the three optional fields. -/
def validUpdateSession (i : UpdateSessionInput) : Bool :=
  i.id.length ≥ 1 &&
    (i.language.isSome || i.context.isSome || i.originalText.isSome)

/-- Input of `createVariant`. -/
structure CreateVariantInput where
  sessionId : String
  tone : Option String
  complexity : Option String
  variantLabel : Option String
  content : String
  isFavorite : Option Bool
  deriving Repr, DecidableEq

/-- zod schema of `createVariant`: `sessionId` and `content` need `min(1)`. -/
def validCreateVariant (i : CreateVariantInput) : Bool :=
  i.sessionId.length ≥ 1 && i.content.length ≥ 1

/-- Input of `updateVariant`. -/
structure UpdateVariantInput where
  id : String
  sessionId : String
  tone : Option String
  complexity : Option String
  variantLabel : Option String
  content : Option String
  isFavorite : Option Bool
  deriving Repr, DecidableEq

/-- zod schema of `updateVariant`: both ids need `min(1)` and the refine
rule requires at least one of the five optional fields. -/
def validUpdateVariant (i : UpdateVariantInput) : Bool :=
  i.id.length ≥ 1 && i.sessionId.length ≥ 1 &&
    (i.tone.isSome || i.complexity.isSome || i.variantLabel.isSome ||
      i.content.isSome || i.isFavorite.isSome)

/-- Input of `deleteVariant`. -/
structure DeleteVariantInput where
  id : String
  sessionId : String
  deriving Repr, DecidableEq

/-- zod schema of `deleteVariant`: both ids need `min(1)`. -/
def validDeleteVariant (i : DeleteVariantInput) : Bool :=
  i.id.length ≥ 1 && i.sessionId.length ≥ 1

/-- Input of `listVariants`; `favoritesOnly` is `z.boolean().default(false)`,
so an omitted field reads as `false`. -/
structure ListVariantsInput where
  sessionId : String
  favoritesOnly : Option Bool
  deriving Repr, DecidableEq

/-- zod schema of `listVariants`: `sessionId` needs `min(1)`. -/
def validListVariants (i : ListVariantsInput) : Bool :=
  i.sessionId.length ≥ 1

/-! ### The seven operations -/

/-- `createSession` handler: insert a new session row with a generated
id, the caller as owner, and both timestamps set to `now`; return the
inserted record. -/
def createSession (ctx : Ctx) (input : CreateSessionInput)
    (freshId : String) (now : Nat) (σ : Store) :
    Except ActionError Session × Store :=
  match requireUser ctx with
  | .error e => (.error e, σ)
  | .ok user =>
    if validCreateSession input then
      let session : Session :=
        { id := freshId
          userId := user.id
          language := input.language
          context := input.context
          originalText := input.originalText
          createdAt := now
          updatedAt := now }
      (.ok session, { σ with sessions := σ.sessions ++ [session] })
    else (.error validationError, σ)

/-- The `set` clause of `updateSession`: overwrite each field that was
supplied, leave the others, and always refresh `updatedAt`. -/
def patchSession (input : UpdateSessionInput) (now : Nat) (s : Session) : Session :=
  { s with
    language := match input.language with
      | some l => some l
      | none => s.language
    context := match input.context with
      | some c => some c
      | none => s.context
    originalText := match input.originalText with
      | some t => t
      | none => s.originalText
    updatedAt := now }

/-- `updateSession` handler: require a user, resolve the owned session,
then `update ... where id = input.id` with the supplied fields and
return the first updated row (`returning()` destructured). -/
def updateSession (ctx : Ctx) (input : UpdateSessionInput) (now : Nat) (σ : Store) :
    Except ActionError (Option Session) × Store :=
  match requireUser ctx with
  | .error e => (.error e, σ)
  | .ok user =>
    if validUpdateSession input then
      match getOwnedSession input.id user.id σ with
      | .error e => (.error e, σ)
      | .ok _ =>
        let sessions' := σ.sessions.map
          (fun s => if s.id == input.id then patchSession input now s else s)
        let returned := ((σ.sessions.filter (fun s => s.id == input.id)).map
          (patchSession input now)).head?
        (.ok returned, { σ with sessions := sessions' })
    else (.error validationError, σ)

/-- `listSessions` handler: all sessions whose `userId` is the caller,
with their count. -/
def listSessions (ctx : Ctx) (σ : Store) :
    Except ActionError (List Session × Nat) × Store :=
  match requireUser ctx with
  | .error e => (.error e, σ)
  | .ok user =>
    let items := σ.sessions.filter (fun s => s.userId == user.id)
    (.ok (items, items.length), σ)

/-- `createVariant` handler: require a user, resolve the owned session,
then insert a new variant with a generated id, `isFavorite` defaulted to
`false` when omitted, and `createdAt` set to `now`. -/
def createVariant (ctx : Ctx) (input : CreateVariantInput)
    (freshId : String) (now : Nat) (σ : Store) :
    Except ActionError Variant × Store :=
  match requireUser ctx with
  | .error e => (.error e, σ)
  | .ok user =>
    if validCreateVariant input then
      match getOwnedSession input.sessionId user.id σ with
      | .error e => (.error e, σ)
      | .ok _ =>
        let variant : Variant :=
          { id := freshId
            sessionId := input.sessionId
            tone := input.tone
            complexity := input.complexity
            variantLabel := input.variantLabel
            content := input.content
            isFavorite := input.isFavorite.getD false
            createdAt := now }
        (.ok variant, { σ with variants := σ.variants ++ [variant] })
    else (.error validationError, σ)

/-- The `set` clause of `updateVariant`: overwrite each supplied field;
`id`, `sessionId` and `createdAt` are not in the clause. -/
def patchVariant (input : UpdateVariantInput) (v : Variant) : Variant :=
  { v with
    tone := match input.tone with
      | some t => some t
      | none => v.tone
    complexity := match input.complexity with
      | some c => some c
      | none => v.complexity
    variantLabel := match input.variantLabel with
      | some l => some l
      | none => v.variantLabel
    content := match input.content with
      | some c => c
      | none => v.content
    isFavorite := match input.isFavorite with
      | some b => b
      | none => v.isFavorite }

/-- `updateVariant` handler: require a user, resolve the owned session,
re-fetch the variant filtered by both its id and the supplied
`sessionId` (throwing `NOT_FOUND` when absent), then
`update ... where id = input.id` and return the first updated row. -/
def updateVariant (ctx : Ctx) (input : UpdateVariantInput) (σ : Store) :
    Except ActionError (Option Variant) × Store :=
  match requireUser ctx with
  | .error e => (.error e, σ)
  | .ok user =>
    if validUpdateVariant input then
      match getOwnedSession input.sessionId user.id σ with
      | .error e => (.error e, σ)
      | .ok _ =>
        match σ.variants.find?
            (fun v => v.id == input.id && v.sessionId == input.sessionId) with
        | none => (.error variantNotFoundError, σ)
        | some _ =>
          let variants' := σ.variants.map
            (fun v => if v.id == input.id then patchVariant input v else v)
          let returned := ((σ.variants.filter (fun v => v.id == input.id)).map
            (patchVariant input)).head?
          (.ok returned, { σ with variants := variants' })
    else (.error validationError, σ)

/-- `deleteVariant` handler: require a user, resolve the owned session,
delete the variants matching both id and sessionId, and throw
`NOT_FOUND` when zero rows were affected; success carries no body. -/
def deleteVariant (ctx : Ctx) (input : DeleteVariantInput) (σ : Store) :
    Except ActionError Unit × Store :=
  match requireUser ctx with
  | .error e => (.error e, σ)
  | .ok user =>
    if validDeleteVariant input then
      match getOwnedSession input.sessionId user.id σ with
      | .error e => (.error e, σ)
      | .ok _ =>
        let rowsAffected := (σ.variants.filter
          (fun v => v.id == input.id && v.sessionId == input.sessionId)).length
        let remaining := σ.variants.filter
          (fun v => !(v.id == input.id && v.sessionId == input.sessionId))
        if rowsAffected == 0 then (.error variantNotFoundError, σ)
        else (.ok (), { σ with variants := remaining })
    else (.error validationError, σ)

/-- `listVariants` handler: require a user, resolve the owned session,
then select the variants of that session, restricted to favorites when
`favoritesOnly` (defaulted to `false`) is true, with their count. -/
def listVariants (ctx : Ctx) (input : ListVariantsInput) (σ : Store) :
    Except ActionError (List Variant × Nat) × Store :=
  match requireUser ctx with
  | .error e => (.error e, σ)
  | .ok user =>
    if validListVariants input then
      match getOwnedSession input.sessionId user.id σ with
      | .error e => (.error e, σ)
      | .ok _ =>
        let favoritesOnly := input.favoritesOnly.getD false
        let items := σ.variants.filter
          (fun v => v.sessionId == input.sessionId &&
            (!favoritesOnly || v.isFavorite == true))
        (.ok (items, items.length), σ)
    else (.error validationError, σ)

/-! ### Calls and reachable states

A `Call` packages one invocation of one of the seven operations with
its context, input and non-deterministic parameters; `applyCall` is its
effect on the persisted state (errors leave the store unchanged).  A
state is `Reachable` when some sequence of calls produces it from the
empty database. -/

/-- One invocation of one of the seven operations. -/
inductive Call where
  | createSession (ctx : Ctx) (input : CreateSessionInput) (freshId : String) (now : Nat)
  | updateSession (ctx : Ctx) (input : UpdateSessionInput) (now : Nat)
  | listSessions (ctx : Ctx)
  | createVariant (ctx : Ctx) (input : CreateVariantInput) (freshId : String) (now : Nat)
  | updateVariant (ctx : Ctx) (input : UpdateVariantInput)
  | deleteVariant (ctx : Ctx) (input : DeleteVariantInput)
  | listVariants (ctx : Ctx) (input : ListVariantsInput)
  deriving Repr

/-- The effect of a call on the persisted state. -/
def applyCall : Call → Store → Store
  | .createSession ctx i fid now, σ => (createSession ctx i fid now σ).2
  | .updateSession ctx i now, σ => (updateSession ctx i now σ).2
  | .listSessions ctx, σ => (listSessions ctx σ).2
  | .createVariant ctx i fid now, σ => (createVariant ctx i fid now σ).2
  | .updateVariant ctx i, σ => (updateVariant ctx i σ).2
  | .deleteVariant ctx i, σ => (deleteVariant ctx i σ).2
  | .listVariants ctx i, σ => (listVariants ctx i σ).2

/-- Run a sequence of calls from a state. -/
def runCalls (cs : List Call) (σ : Store) : Store :=
  cs.foldl (fun σ c => applyCall c σ) σ

/-- A state reachable by some sequence of the seven operations from the
empty database. -/
def Reachable (σ : Store) : Prop :=
  ∃ cs : List Call, runCalls cs emptyStore = σ

/-- Every stored session has a non-empty `originalText` and every stored
variant a non-empty `content`. -/
def nonEmptyTexts (σ : Store) : Prop :=
  (∀ s ∈ σ.sessions, s.originalText ≠ "") ∧ (∀ v ∈ σ.variants, v.content ≠ "")

instance (σ : Store) : Decidable (nonEmptyTexts σ) := by
  unfold nonEmptyTexts; infer_instance

/-! ### Store well-formedness

`id` is the primary key of each table, so distinct rows have distinct
ids in any state the storage engine can hold. -/

/-- Primary-key uniqueness of `RephraseSessions.id`. -/
def sessionIdsUnique (σ : Store) : Prop :=
  ∀ s₁ ∈ σ.sessions, ∀ s₂ ∈ σ.sessions, s₁.id = s₂.id → s₁ = s₂

/-- Primary-key uniqueness of `RephraseVariants.id`. -/
def variantIdsUnique (σ : Store) : Prop :=
  ∀ v₁ ∈ σ.variants, ∀ v₂ ∈ σ.variants, v₁.id = v₂.id → v₁ = v₂

instance (σ : Store) : Decidable (sessionIdsUnique σ) := by
  unfold sessionIdsUnique; infer_instance

instance (σ : Store) : Decidable (variantIdsUnique σ) := by
  unfold variantIdsUnique; infer_instance

/-! ### Concrete sample values (used to instantiate the theorems) -/

/-- A session owned by user `alice`. -/
def sampleSession : Session :=
  { id := "s1", userId := "alice", language := none, context := none,
    originalText := "hello", createdAt := 0, updatedAt := 0 }

/-- A second session owned by `alice`. -/
def sampleSession2 : Session :=
  { id := "s2", userId := "alice", language := none, context := none,
    originalText := "other", createdAt := 0, updatedAt := 0 }

/-- A variant attached to `sampleSession2`. -/
def sampleVariant : Variant :=
  { id := "v1", sessionId := "s2", tone := none, complexity := none,
    variantLabel := none, content := "variant A", isFavorite := false, createdAt := 0 }

/-- A store holding only `sampleSession`. -/
def sampleStore : Store := { sessions := [sampleSession], variants := [] }

/-- A store holding both sessions of `alice` and the variant of `s2`. -/
def sampleStore2 : Store :=
  { sessions := [sampleSession, sampleSession2], variants := [sampleVariant] }

/-! ### Helper lemmas -/

lemma requireUser_none {ctx : Ctx} (h : ctx.user = none) :
    requireUser ctx = .error unauthorizedError := by
  simp [requireUser, h]

lemma requireUser_some {ctx : Ctx} {u : User} (h : ctx.user = some u) :
    requireUser ctx = .ok u := by
  simp [requireUser, h]

lemma getOwnedSession_eq_error {σ : Store} {sid uid : String}
    (h : ∀ s ∈ σ.sessions, ¬(s.id = sid ∧ s.userId = uid)) :
    getOwnedSession sid uid σ = .error sessionNotFoundError := by
  unfold getOwnedSession
  have hfind : σ.sessions.find? (fun s => s.id == sid && s.userId == uid) = none := by
    rw [List.find?_eq_none]
    intro s hs
    have := h s hs
    simp only [Bool.and_eq_true, beq_iff_eq]
    tauto
  rw [hfind]

lemma getOwnedSession_eq_ok {σ : Store} {sid uid : String} {S : Session}
    (hfind : σ.sessions.find? (fun s => s.id == sid && s.userId == uid) = some S) :
    getOwnedSession sid uid σ = .ok S := by
  unfold getOwnedSession
  rw [hfind]

lemma string_length_ge_one {s : String} (h : s ≠ "") : s.length ≥ 1 := by
  cases s with
  | mk data =>
    cases data with
    | nil => simp [String.ext_iff] at h
    | cons a l => simp [String.length]

lemma updateSession_session_not_found {ctx : Ctx} {u : User} {i : UpdateSessionInput}
    {now : Nat} {σ : Store} (h : ctx.user = some u) (hvalid : validUpdateSession i = true)
    (hown : getOwnedSession i.id u.id σ = .error sessionNotFoundError) :
    updateSession ctx i now σ = (.error sessionNotFoundError, σ) := by
  simp [updateSession, requireUser_some h, hvalid, hown]

lemma createVariant_session_not_found {ctx : Ctx} {u : User} {i : CreateVariantInput}
    {fid : String} {now : Nat} {σ : Store} (h : ctx.user = some u)
    (hvalid : validCreateVariant i = true)
    (hown : getOwnedSession i.sessionId u.id σ = .error sessionNotFoundError) :
    createVariant ctx i fid now σ = (.error sessionNotFoundError, σ) := by
  simp [createVariant, requireUser_some h, hvalid, hown]

lemma updateVariant_session_not_found {ctx : Ctx} {u : User} {i : UpdateVariantInput}
    {σ : Store} (h : ctx.user = some u) (hvalid : validUpdateVariant i = true)
    (hown : getOwnedSession i.sessionId u.id σ = .error sessionNotFoundError) :
    updateVariant ctx i σ = (.error sessionNotFoundError, σ) := by
  simp [updateVariant, requireUser_some h, hvalid, hown]

lemma deleteVariant_session_not_found {ctx : Ctx} {u : User} {i : DeleteVariantInput}
    {σ : Store} (h : ctx.user = some u) (hvalid : validDeleteVariant i = true)
    (hown : getOwnedSession i.sessionId u.id σ = .error sessionNotFoundError) :
    deleteVariant ctx i σ = (.error sessionNotFoundError, σ) := by
  simp [deleteVariant, requireUser_some h, hvalid, hown]

lemma listVariants_session_not_found {ctx : Ctx} {u : User} {i : ListVariantsInput}
    {σ : Store} (h : ctx.user = some u) (hvalid : validListVariants i = true)
    (hown : getOwnedSession i.sessionId u.id σ = .error sessionNotFoundError) :
    listVariants ctx i σ = (.error sessionNotFoundError, σ) := by
  simp [listVariants, requireUser_some h, hvalid, hown]

lemma bool_not_true {b : Bool} (h : (!b) = true) : b = false := by
  cases b
  · rfl
  · simp at h

lemma find?_eq_some_of_unique {α : Type} (p : α → Bool) (l : List α) (a : α)
    (ha : a ∈ l) (hpa : p a = true) (huniq : ∀ x ∈ l, p x = true → x = a) :
    l.find? p = some a := by
  induction l with
  | nil => cases ha
  | cons b t ih =>
    rcases List.mem_cons.mp ha with hab | hat
    · subst hab
      rw [List.find?_cons_of_pos _ hpa]
    · by_cases hb : p b = true
      · have hba : b = a := huniq b (List.mem_cons_self b t) hb
        rw [List.find?_cons_of_pos _ hb, hba]
      · rw [List.find?_cons_of_neg _ (by simpa using hb)]
        exact ih hat (fun x hx hpx => huniq x (List.mem_cons_of_mem b hx) hpx)

lemma filter_head?_of_unique {α : Type} (p : α → Bool) (l : List α) (a : α)
    (ha : a ∈ l) (hpa : p a = true) (huniq : ∀ x ∈ l, p x = true → x = a) :
    (l.filter p).head? = some a := by
  induction l with
  | nil => cases ha
  | cons b t ih =>
    rcases List.mem_cons.mp ha with hab | hat
    · subst hab
      simp [List.filter_cons, hpa]
    · by_cases hb : p b = true
      · have hba : b = a := huniq b (List.mem_cons_self b t) hb
        simp [List.filter_cons, hb, hba, hpa]
      · simp only [List.filter_cons, hb, if_neg]
        simp only [Bool.false_eq_true, if_false]
        exact ih hat (fun x hx hpx => huniq x (List.mem_cons_of_mem b hx) hpx)

/-! ### Claims -/

/-- C1: a caller `V` distinct from the owner `U` of session `S` gets the
`NOT_FOUND` error "Rephrase session not found" with the store unchanged
from every session-resolving operation (`updateSession`, `createVariant`,
`updateVariant`, `deleteVariant`, `listVariants`), and — because the
lookup is a single query filtered by both the session id and the
caller's id — the outcome on a store `σ₂` that has no session with that
id at all is identical. -/
theorem c1_cross_user_isolation
    (σ σ₂ : Store) (S : Session) (U : String) (V : User) (ctx : Ctx)
    (now : Nat) (fid : String)
    (hS : S ∈ σ.sessions) (hU : S.userId = U) (huniq : sessionIdsUnique σ)
    (hV : V.id ≠ U) (hctx : ctx.user = some V)
    (habsent : ∀ s ∈ σ₂.sessions, s.id ≠ S.id) :
    (∀ i : UpdateSessionInput, validUpdateSession i = true → i.id = S.id →
        updateSession ctx i now σ = (.error sessionNotFoundError, σ) ∧
        updateSession ctx i now σ₂ = (.error sessionNotFoundError, σ₂)) ∧
    (∀ i : CreateVariantInput, validCreateVariant i = true → i.sessionId = S.id →
        createVariant ctx i fid now σ = (.error sessionNotFoundError, σ) ∧
        createVariant ctx i fid now σ₂ = (.error sessionNotFoundError, σ₂)) ∧
    (∀ i : UpdateVariantInput, validUpdateVariant i = true → i.sessionId = S.id →
        updateVariant ctx i σ = (.error sessionNotFoundError, σ) ∧
        updateVariant ctx i σ₂ = (.error sessionNotFoundError, σ₂)) ∧
    (∀ i : DeleteVariantInput, validDeleteVariant i = true → i.sessionId = S.id →
        deleteVariant ctx i σ = (.error sessionNotFoundError, σ) ∧
        deleteVariant ctx i σ₂ = (.error sessionNotFoundError, σ₂)) ∧
    (∀ i : ListVariantsInput, validListVariants i = true → i.sessionId = S.id →
        listVariants ctx i σ = (.error sessionNotFoundError, σ) ∧
        listVariants ctx i σ₂ = (.error sessionNotFoundError, σ₂)) := by
  have hno₁ : ∀ s ∈ σ.sessions, ¬(s.id = S.id ∧ s.userId = V.id) := by
    rintro s hs ⟨hid, huid⟩
    have hsS : s = S := huniq s hs S hS hid
    rw [hsS, hU] at huid
    exact hV huid.symm
  have hno₂ : ∀ s ∈ σ₂.sessions, ¬(s.id = S.id ∧ s.userId = V.id) :=
    fun s hs hh => habsent s hs hh.1
  have hown₁ : getOwnedSession S.id V.id σ = .error sessionNotFoundError :=
    getOwnedSession_eq_error hno₁
  have hown₂ : getOwnedSession S.id V.id σ₂ = .error sessionNotFoundError :=
    getOwnedSession_eq_error hno₂
  refine ⟨?_, ?_, ?_, ?_, ?_⟩ <;> intro i hvalid hid
  · exact ⟨updateSession_session_not_found hctx hvalid (by rw [hid]; exact hown₁),
      updateSession_session_not_found hctx hvalid (by rw [hid]; exact hown₂)⟩
  · exact ⟨createVariant_session_not_found hctx hvalid (by rw [hid]; exact hown₁),
      createVariant_session_not_found hctx hvalid (by rw [hid]; exact hown₂)⟩
  · exact ⟨updateVariant_session_not_found hctx hvalid (by rw [hid]; exact hown₁),
      updateVariant_session_not_found hctx hvalid (by rw [hid]; exact hown₂)⟩
  · exact ⟨deleteVariant_session_not_found hctx hvalid (by rw [hid]; exact hown₁),
      deleteVariant_session_not_found hctx hvalid (by rw [hid]; exact hown₂)⟩
  · exact ⟨listVariants_session_not_found hctx hvalid (by rw [hid]; exact hown₁),
      listVariants_session_not_found hctx hvalid (by rw [hid]; exact hown₂)⟩

/-- Witness for C1: `bob` calling on `alice`'s session `s1`, and the
same calls on the empty store. -/
theorem c1_cross_user_isolation_witness :
    (sampleSession ∈ sampleStore.sessions ∧ sampleSession.userId = "alice" ∧
      sessionIdsUnique sampleStore ∧ (User.mk "bob").id ≠ "alice" ∧
      (Ctx.mk (some ⟨"bob"⟩)).user = some ⟨"bob"⟩ ∧
      (∀ s ∈ emptyStore.sessions, s.id ≠ sampleSession.id)) ∧
    ((∀ i : UpdateSessionInput, validUpdateSession i = true → i.id = sampleSession.id →
        updateSession ⟨some ⟨"bob"⟩⟩ i 1 sampleStore = (.error sessionNotFoundError, sampleStore) ∧
        updateSession ⟨some ⟨"bob"⟩⟩ i 1 emptyStore = (.error sessionNotFoundError, emptyStore)) ∧
      (∀ i : CreateVariantInput, validCreateVariant i = true → i.sessionId = sampleSession.id →
        createVariant ⟨some ⟨"bob"⟩⟩ i "vx" 1 sampleStore = (.error sessionNotFoundError, sampleStore) ∧
        createVariant ⟨some ⟨"bob"⟩⟩ i "vx" 1 emptyStore = (.error sessionNotFoundError, emptyStore)) ∧
      (∀ i : UpdateVariantInput, validUpdateVariant i = true → i.sessionId = sampleSession.id →
        updateVariant ⟨some ⟨"bob"⟩⟩ i sampleStore = (.error sessionNotFoundError, sampleStore) ∧
        updateVariant ⟨some ⟨"bob"⟩⟩ i emptyStore = (.error sessionNotFoundError, emptyStore)) ∧
      (∀ i : DeleteVariantInput, validDeleteVariant i = true → i.sessionId = sampleSession.id →
        deleteVariant ⟨some ⟨"bob"⟩⟩ i sampleStore = (.error sessionNotFoundError, sampleStore) ∧
        deleteVariant ⟨some ⟨"bob"⟩⟩ i emptyStore = (.error sessionNotFoundError, emptyStore)) ∧
      (∀ i : ListVariantsInput, validListVariants i = true → i.sessionId = sampleSession.id →
        listVariants ⟨some ⟨"bob"⟩⟩ i sampleStore = (.error sessionNotFoundError, sampleStore) ∧
        listVariants ⟨some ⟨"bob"⟩⟩ i emptyStore = (.error sessionNotFoundError, emptyStore))) :=
  ⟨⟨by decide, by decide, by decide, by decide, rfl, by decide⟩,
    c1_cross_user_isolation sampleStore emptyStore sampleSession "alice" ⟨"bob"⟩
      ⟨some ⟨"bob"⟩⟩ 1 "vx" (by decide) (by decide) (by decide) (by decide) rfl (by decide)⟩

/-- C2: with no authenticated user in the request context, every one of
the seven operations fails with the `UNAUTHORIZED` error and leaves the
persisted store unchanged (no persistence access occurs: the returned
state is the input state). -/
theorem c2_unauthenticated_fails_all_ops
    (ctx : Ctx) (σ : Store) (h : ctx.user = none)
    (i₁ : CreateSessionInput) (fid₁ : String) (now₁ : Nat)
    (i₂ : UpdateSessionInput) (now₂ : Nat)
    (i₃ : CreateVariantInput) (fid₃ : String) (now₃ : Nat)
    (i₄ : UpdateVariantInput) (i₅ : DeleteVariantInput) (i₆ : ListVariantsInput) :
    createSession ctx i₁ fid₁ now₁ σ = (.error unauthorizedError, σ) ∧
    updateSession ctx i₂ now₂ σ = (.error unauthorizedError, σ) ∧
    listSessions ctx σ = (.error unauthorizedError, σ) ∧
    createVariant ctx i₃ fid₃ now₃ σ = (.error unauthorizedError, σ) ∧
    updateVariant ctx i₄ σ = (.error unauthorizedError, σ) ∧
    deleteVariant ctx i₅ σ = (.error unauthorizedError, σ) ∧
    listVariants ctx i₆ σ = (.error unauthorizedError, σ) := by
  refine ⟨?_, ?_, ?_, ?_, ?_, ?_, ?_⟩ <;>
    simp [createSession, updateSession, listSessions, createVariant, updateVariant,
      deleteVariant, listVariants, requireUser_none h]

/-- Witness for C2 at a concrete unauthenticated context. -/
theorem c2_unauthenticated_fails_all_ops_witness :
    (Ctx.mk none).user = none ∧
    (createSession ⟨none⟩ ⟨none, none, "hello"⟩ "s1" 0 emptyStore
        = (.error unauthorizedError, emptyStore) ∧
      updateSession ⟨none⟩ ⟨"s1", none, none, some "x"⟩ 1 emptyStore
        = (.error unauthorizedError, emptyStore) ∧
      listSessions ⟨none⟩ emptyStore = (.error unauthorizedError, emptyStore) ∧
      createVariant ⟨none⟩ ⟨"s1", none, none, none, "c", none⟩ "v1" 2 emptyStore
        = (.error unauthorizedError, emptyStore) ∧
      updateVariant ⟨none⟩ ⟨"v1", "s1", none, none, none, none, some true⟩ emptyStore
        = (.error unauthorizedError, emptyStore) ∧
      deleteVariant ⟨none⟩ ⟨"v1", "s1"⟩ emptyStore = (.error unauthorizedError, emptyStore) ∧
      listVariants ⟨none⟩ ⟨"s1", none⟩ emptyStore = (.error unauthorizedError, emptyStore)) :=
  ⟨rfl,
    c2_unauthenticated_fails_all_ops ⟨none⟩ emptyStore rfl
      ⟨none, none, "hello"⟩ "s1" 0
      ⟨"s1", none, none, some "x"⟩ 1
      ⟨"s1", none, none, none, "c", none⟩ "v1" 2
      ⟨"v1", "s1", none, none, none, none, some true⟩ ⟨"v1", "s1"⟩ ⟨"s1", none⟩⟩

/-- C8: for an authenticated user, `createSession` with a non-empty
`originalText` and neither `language` nor `context` appends one record
to the store and returns it, with the generated id, the caller as
`userId`, the input text, absent `language`/`context`, and
`createdAt = updatedAt`. -/
theorem c8_createSession_returns_fresh_record
    (ctx : Ctx) (u : User) (h : ctx.user = some u)
    (i : CreateSessionInput) (hl : i.language = none) (hc : i.context = none)
    (ht : i.originalText ≠ "") (fid : String) (now : Nat) (σ : Store) :
    ∃ S : Session,
      createSession ctx i fid now σ = (.ok S, { σ with sessions := σ.sessions ++ [S] }) ∧
      S.id = fid ∧ S.userId = u.id ∧ S.originalText = i.originalText ∧
      S.language = none ∧ S.context = none ∧ S.createdAt = S.updatedAt := by
  have hvalid : validCreateSession i = true := by
    simpa [validCreateSession] using string_length_ge_one ht
  refine ⟨⟨fid, u.id, i.language, i.context, i.originalText, now, now⟩, ?_, rfl, rfl, rfl,
    by simpa using hl, by simpa using hc, rfl⟩
  simp [createSession, requireUser_some h, hvalid]

/-- Witness for C8 at a concrete caller and input. -/
theorem c8_createSession_returns_fresh_record_witness :
    (Ctx.mk (some ⟨"u1"⟩)).user = some ⟨"u1"⟩ ∧
    (CreateSessionInput.mk none none "Hello world").language = none ∧
    (CreateSessionInput.mk none none "Hello world").context = none ∧
    (CreateSessionInput.mk none none "Hello world").originalText ≠ "" ∧
    (∃ S : Session,
      createSession ⟨some ⟨"u1"⟩⟩ ⟨none, none, "Hello world"⟩ "s1" 5 emptyStore
        = (.ok S, { emptyStore with sessions := emptyStore.sessions ++ [S] }) ∧
      S.id = "s1" ∧ S.userId = ("u1" : String) ∧ S.originalText = "Hello world" ∧
      S.language = none ∧ S.context = none ∧ S.createdAt = S.updatedAt) :=
  ⟨rfl, rfl, rfl, by decide,
    c8_createSession_returns_fresh_record ⟨some ⟨"u1"⟩⟩ ⟨"u1"⟩ rfl
      ⟨none, none, "Hello world"⟩ rfl rfl (by decide) "s1" 5 emptyStore⟩

/-- C6: for an authenticated caller, an update input supplying none of
the mutable optional fields fails the `.refine` validation of the input
schema before any persistence access, for both `updateSession`
(language/context/originalText all absent) and `updateVariant`
(tone/complexity/variantLabel/content/isFavorite all absent); the store
is unchanged and the call is not a no-op success. -/
theorem c6_zero_field_update_is_validation_failure
    (ctx : Ctx) (u : User) (h : ctx.user = some u) (σ : Store) (now : Nat)
    (i : UpdateSessionInput) (hl : i.language = none) (hc : i.context = none)
    (ht : i.originalText = none)
    (j : UpdateVariantInput) (jt : j.tone = none) (jc : j.complexity = none)
    (jl : j.variantLabel = none) (jco : j.content = none) (jf : j.isFavorite = none) :
    updateSession ctx i now σ = (.error validationError, σ) ∧
    updateVariant ctx j σ = (.error validationError, σ) := by
  have hv₁ : validUpdateSession i = false := by
    simp [validUpdateSession, hl, hc, ht]
  have hv₂ : validUpdateVariant j = false := by
    simp [validUpdateVariant, jt, jc, jl, jco, jf]
  exact ⟨by simp [updateSession, requireUser_some h, hv₁],
    by simp [updateVariant, requireUser_some h, hv₂]⟩

/-- Witness for C6 at concrete zero-field update inputs. -/
theorem c6_zero_field_update_is_validation_failure_witness :
    (Ctx.mk (some ⟨"alice"⟩)).user = some ⟨"alice"⟩ ∧
    (UpdateSessionInput.mk "s1" none none none).language = none ∧
    (UpdateSessionInput.mk "s1" none none none).context = none ∧
    (UpdateSessionInput.mk "s1" none none none).originalText = none ∧
    (UpdateVariantInput.mk "v1" "s1" none none none none none).tone = none ∧
    (UpdateVariantInput.mk "v1" "s1" none none none none none).isFavorite = none ∧
    (updateSession ⟨some ⟨"alice"⟩⟩ ⟨"s1", none, none, none⟩ 1 sampleStore
        = (.error validationError, sampleStore) ∧
      updateVariant ⟨some ⟨"alice"⟩⟩ ⟨"v1", "s1", none, none, none, none, none⟩ sampleStore
        = (.error validationError, sampleStore)) :=
  ⟨rfl, rfl, rfl, rfl, rfl, rfl,
    c6_zero_field_update_is_validation_failure ⟨some ⟨"alice"⟩⟩ ⟨"alice"⟩ rfl sampleStore 1
      ⟨"s1", none, none, none⟩ rfl rfl rfl
      ⟨"v1", "s1", none, none, none, none, none⟩ rfl rfl rfl rfl rfl⟩

/-- C4: for an authenticated owner of both sessions, `updateVariant`
with a variant id that exists but belongs to a session other than the
supplied `sessionId` fails with `NOT_FOUND` ("Rephrase variant not
found") and leaves the store unchanged: the handler re-fetches the
variant filtered by both its own id and the supplied `sessionId` before
any write. -/
theorem c4_updateVariant_wrong_session_not_found
    (ctx : Ctx) (u : User) (σ : Store) (i : UpdateVariantInput)
    (S S₂ : Session) (W : Variant)
    (hctx : ctx.user = some u) (hvalid : validUpdateVariant i = true)
    (hS : S ∈ σ.sessions) (hSid : S.id = i.sessionId) (hSuid : S.userId = u.id)
    (hW : W ∈ σ.variants) (hWid : W.id = i.id) (hWses : W.sessionId ≠ i.sessionId)
    (hS₂ : S₂ ∈ σ.sessions) (hS₂id : S₂.id = W.sessionId) (hS₂uid : S₂.userId = u.id)
    (huniqV : variantIdsUnique σ) :
    updateVariant ctx i σ = (.error variantNotFoundError, σ) := by
  have hex : (σ.sessions.find? (fun s => s.id == i.sessionId && s.userId == u.id)).isSome := by
    rw [List.find?_isSome]
    exact ⟨S, hS, by simp [hSid, hSuid]⟩
  obtain ⟨S', hok⟩ := Option.isSome_iff_exists.mp hex
  have hownOk : getOwnedSession i.sessionId u.id σ = .ok S' := getOwnedSession_eq_ok hok
  have hfind : σ.variants.find? (fun v => v.id == i.id && v.sessionId == i.sessionId) = none := by
    rw [List.find?_eq_none]
    intro v hv
    simp only [Bool.and_eq_true, beq_iff_eq, not_and]
    intro hvid hvses
    have hvW : v = W := huniqV v hv W hW (by rw [hvid, hWid])
    rw [hvW] at hvses
    exact hWses hvses
  simp [updateVariant, requireUser_some hctx, hvalid, hownOk, hfind]

/-- Witness for C4: `alice` owns `s1` and `s2`, variant `v1` lives in
`s2`, and `updateVariant` is called with `sessionId = s1`. -/
theorem c4_updateVariant_wrong_session_not_found_witness :
    ((Ctx.mk (some ⟨"alice"⟩)).user = some ⟨"alice"⟩ ∧
      validUpdateVariant ⟨"v1", "s1", some "formal", none, none, none, none⟩ = true ∧
      sampleSession ∈ sampleStore2.sessions ∧ sampleSession.id = "s1" ∧
      sampleSession.userId = (User.mk "alice").id ∧
      sampleVariant ∈ sampleStore2.variants ∧ sampleVariant.id = "v1" ∧
      sampleVariant.sessionId ≠ "s1" ∧
      sampleSession2 ∈ sampleStore2.sessions ∧
      sampleSession2.id = sampleVariant.sessionId ∧
      sampleSession2.userId = (User.mk "alice").id ∧
      variantIdsUnique sampleStore2) ∧
    updateVariant ⟨some ⟨"alice"⟩⟩ ⟨"v1", "s1", some "formal", none, none, none, none⟩
      sampleStore2 = (.error variantNotFoundError, sampleStore2) :=
  ⟨⟨rfl, by decide, by decide, by decide, by decide, by decide, by decide, by decide,
      by decide, by decide, by decide, by decide⟩,
    c4_updateVariant_wrong_session_not_found ⟨some ⟨"alice"⟩⟩ ⟨"alice"⟩ sampleStore2
      ⟨"v1", "s1", some "formal", none, none, none, none⟩ sampleSession sampleSession2
      sampleVariant rfl (by decide) (by decide) (by decide) (by decide) (by decide)
      (by decide) (by decide) (by decide) (by decide) (by decide) (by decide)⟩

/-- C3: the claim that every reachable store holds only non-empty
`originalText`/`content` fails on the code: `updateSession` declares
`originalText: z.string().optional()` and `updateVariant` declares
`content: z.string().optional()` — without `.min(1)` — so a reachable
sequence of calls stores an empty `originalText` and an empty
`content`. -/
theorem c3_updates_can_store_empty_texts :
    ∃ σ : Store, Reachable σ ∧ ¬ nonEmptyTexts σ := by
  refine ⟨runCalls
    [Call.createSession ⟨some ⟨"u1"⟩⟩ ⟨none, none, "hello"⟩ "s1" 0,
      Call.createVariant ⟨some ⟨"u1"⟩⟩ ⟨"s1", none, none, none, "variant A", none⟩ "v1" 1,
      Call.updateSession ⟨some ⟨"u1"⟩⟩ ⟨"s1", none, none, some ""⟩ 2,
      Call.updateVariant ⟨some ⟨"u1"⟩⟩ ⟨"v1", "s1", none, none, none, some "", none⟩]
    emptyStore, ⟨_, rfl⟩, ?_⟩
  decide

/-- C7: on an owned session, `updateSession` overwrites exactly the
supplied optional fields and always sets `updatedAt` to the current
instant; the unsupplied fields among language/context/originalText and
the fields id, userId, createdAt are unchanged; other rows and the
variants table are untouched; and the updated record is returned. -/
theorem c7_updateSession_overwrites_only_supplied_fields
    (ctx : Ctx) (u : User) (σ : Store) (i : UpdateSessionInput) (now : Nat) (S : Session)
    (hctx : ctx.user = some u) (hvalid : validUpdateSession i = true)
    (hS : S ∈ σ.sessions) (hSid : S.id = i.id) (hSuid : S.userId = u.id)
    (huniq : sessionIdsUnique σ) :
    ∃ S' : Session,
      updateSession ctx i now σ =
        (.ok (some S'),
          { sessions := σ.sessions.map (fun s => if s.id == i.id then S' else s),
            variants := σ.variants }) ∧
      S'.id = S.id ∧ S'.userId = S.userId ∧ S'.createdAt = S.createdAt ∧
      S'.updatedAt = now ∧
      (∀ l, i.language = some l → S'.language = some l) ∧
      (i.language = none → S'.language = S.language) ∧
      (∀ c, i.context = some c → S'.context = some c) ∧
      (i.context = none → S'.context = S.context) ∧
      (∀ t, i.originalText = some t → S'.originalText = t) ∧
      (i.originalText = none → S'.originalText = S.originalText) := by
  have hmatch : ∀ s ∈ σ.sessions, s.id = i.id → s = S :=
    fun s hs hid => huniq s hs S hS (hid.trans hSid.symm)
  have hfindS : σ.sessions.find? (fun s => s.id == i.id && s.userId == u.id) = some S := by
    apply find?_eq_some_of_unique _ _ S hS (by simp [hSid, hSuid])
    intro x hx hpx
    simp only [Bool.and_eq_true, beq_iff_eq] at hpx
    exact hmatch x hx hpx.1
  have hok : getOwnedSession i.id u.id σ = .ok S := getOwnedSession_eq_ok hfindS
  have hmap : σ.sessions.map (fun s => if s.id == i.id then patchSession i now s else s)
      = σ.sessions.map (fun s => if s.id == i.id then patchSession i now S else s) := by
    apply List.map_congr_left
    intro s hs
    by_cases h : s.id = i.id
    · simp [h, hmatch s hs h]
    · simp [h]
  have hhead : ((σ.sessions.filter (fun s => s.id == i.id)).map (patchSession i now)).head?
      = some (patchSession i now S) := by
    rw [List.head?_map, filter_head?_of_unique _ _ S hS (by simp [hSid])
      (fun x hx hpx => hmatch x hx (by simpa using hpx))]
    rfl
  refine ⟨patchSession i now S, ?_, rfl, rfl, rfl, rfl, ?_, ?_, ?_, ?_, ?_, ?_⟩
  · simp only [updateSession, requireUser_some hctx, hvalid, if_true, hok, hmap, hhead]
  · intro l hl; simp [patchSession, hl]
  · intro hl; simp [patchSession, hl]
  · intro c hc; simp [patchSession, hc]
  · intro hc; simp [patchSession, hc]
  · intro t ht; simp [patchSession, ht]
  · intro ht; simp [patchSession, ht]

/-- Witness for C7: `alice` updates `s1`, supplying only `originalText`. -/
theorem c7_updateSession_overwrites_only_supplied_fields_witness :
    ((Ctx.mk (some ⟨"alice"⟩)).user = some ⟨"alice"⟩ ∧
      validUpdateSession ⟨"s1", none, none, some "New text"⟩ = true ∧
      sampleSession ∈ sampleStore.sessions ∧ sampleSession.id = "s1" ∧
      sampleSession.userId = (User.mk "alice").id ∧ sessionIdsUnique sampleStore) ∧
    (∃ S' : Session,
      updateSession ⟨some ⟨"alice"⟩⟩ ⟨"s1", none, none, some "New text"⟩ 7 sampleStore =
        (.ok (some S'),
          { sessions := sampleStore.sessions.map (fun s => if s.id == "s1" then S' else s),
            variants := sampleStore.variants }) ∧
      S'.id = sampleSession.id ∧ S'.userId = sampleSession.userId ∧
      S'.createdAt = sampleSession.createdAt ∧ S'.updatedAt = 7 ∧
      (∀ l, (none : Option String) = some l → S'.language = some l) ∧
      ((none : Option String) = none → S'.language = sampleSession.language) ∧
      (∀ c, (none : Option String) = some c → S'.context = some c) ∧
      ((none : Option String) = none → S'.context = sampleSession.context) ∧
      (∀ t, (some "New text" : Option String) = some t → S'.originalText = t) ∧
      ((some "New text" : Option String) = none → S'.originalText = sampleSession.originalText)) :=
  ⟨⟨rfl, by decide, by decide, by decide, by decide, by decide⟩,
    c7_updateSession_overwrites_only_supplied_fields ⟨some ⟨"alice"⟩⟩ ⟨"alice"⟩ sampleStore
      ⟨"s1", none, none, some "New text"⟩ 7 sampleSession rfl (by decide) (by decide)
      (by decide) (by decide) (by decide)⟩

/-- C10: a successful `updateVariant` never changes a variant's `id`,
`sessionId` or `createdAt` (the `set` clause has no entry for them), its
write targets rows by the variant id alone, and the sessions table is
untouched; consequently every variant in the resulting store keeps the
id, session attachment and creation timestamp of a variant of the
original store. -/
theorem c10_updateVariant_preserves_identity_fields
    (ctx : Ctx) (u : User) (σ : Store) (i : UpdateVariantInput)
    (S : Session) (W : Variant)
    (hctx : ctx.user = some u) (hvalid : validUpdateVariant i = true)
    (hS : S ∈ σ.sessions) (hSid : S.id = i.sessionId) (hSuid : S.userId = u.id)
    (hW : W ∈ σ.variants) (hWid : W.id = i.id) (hWses : W.sessionId = i.sessionId) :
    ∃ (ret : Option Variant) (σ' : Store),
      updateVariant ctx i σ = (.ok ret, σ') ∧
      σ'.sessions = σ.sessions ∧
      σ'.variants = σ.variants.map (fun v => if v.id == i.id then patchVariant i v else v) ∧
      (∀ v : Variant, (patchVariant i v).id = v.id ∧ (patchVariant i v).sessionId = v.sessionId ∧
        (patchVariant i v).createdAt = v.createdAt) ∧
      (∀ v' ∈ σ'.variants, ∃ v ∈ σ.variants, v'.id = v.id ∧ v'.sessionId = v.sessionId ∧
        v'.createdAt = v.createdAt) := by
  obtain ⟨S', hok⟩ : ∃ S', getOwnedSession i.sessionId u.id σ = .ok S' := by
    have hex : (σ.sessions.find? (fun s => s.id == i.sessionId && s.userId == u.id)).isSome := by
      rw [List.find?_isSome]
      exact ⟨S, hS, by simp [hSid, hSuid]⟩
    obtain ⟨S', h⟩ := Option.isSome_iff_exists.mp hex
    exact ⟨S', getOwnedSession_eq_ok h⟩
  have hexW : (σ.variants.find? (fun v => v.id == i.id && v.sessionId == i.sessionId)).isSome := by
    rw [List.find?_isSome]
    exact ⟨W, hW, by simp [hWid, hWses]⟩
  obtain ⟨W', hfind⟩ := Option.isSome_iff_exists.mp hexW
  refine ⟨((σ.variants.filter (fun v => v.id == i.id)).map (patchVariant i)).head?,
    { sessions := σ.sessions,
      variants := σ.variants.map (fun v => if v.id == i.id then patchVariant i v else v) },
    ?_, rfl, rfl, fun v => ⟨rfl, rfl, rfl⟩, ?_⟩
  · simp [updateVariant, requireUser_some hctx, hvalid, hok, hfind]
  · intro v' hv'
    rw [List.mem_map] at hv'
    obtain ⟨v, hv, hveq⟩ := hv'
    refine ⟨v, hv, ?_⟩
    rw [← hveq]
    by_cases h : v.id = i.id
    · simp only [h, beq_self_eq_true, if_true]
      exact ⟨h ▸ rfl, rfl, rfl⟩
    · simp [h]

/-- Witness for C10: `alice` toggles `isFavorite` on variant `v1` of
session `s2`. -/
theorem c10_updateVariant_preserves_identity_fields_witness :
    ((Ctx.mk (some ⟨"alice"⟩)).user = some ⟨"alice"⟩ ∧
      validUpdateVariant ⟨"v1", "s2", none, none, none, none, some true⟩ = true ∧
      sampleSession2 ∈ sampleStore2.sessions ∧ sampleSession2.id = "s2" ∧
      sampleSession2.userId = (User.mk "alice").id ∧
      sampleVariant ∈ sampleStore2.variants ∧ sampleVariant.id = "v1" ∧
      sampleVariant.sessionId = "s2") ∧
    (∃ (ret : Option Variant) (σ' : Store),
      updateVariant ⟨some ⟨"alice"⟩⟩ ⟨"v1", "s2", none, none, none, none, some true⟩
        sampleStore2 = (.ok ret, σ') ∧
      σ'.sessions = sampleStore2.sessions ∧
      σ'.variants = sampleStore2.variants.map
        (fun v => if v.id == "v1" then
          patchVariant ⟨"v1", "s2", none, none, none, none, some true⟩ v else v) ∧
      (∀ v : Variant,
        (patchVariant ⟨"v1", "s2", none, none, none, none, some true⟩ v).id = v.id ∧
        (patchVariant ⟨"v1", "s2", none, none, none, none, some true⟩ v).sessionId = v.sessionId ∧
        (patchVariant ⟨"v1", "s2", none, none, none, none, some true⟩ v).createdAt = v.createdAt) ∧
      (∀ v' ∈ σ'.variants, ∃ v ∈ sampleStore2.variants, v'.id = v.id ∧
        v'.sessionId = v.sessionId ∧ v'.createdAt = v.createdAt)) :=
  ⟨⟨rfl, by decide, by decide, by decide, by decide, by decide, by decide, by decide⟩,
    c10_updateVariant_preserves_identity_fields ⟨some ⟨"alice"⟩⟩ ⟨"alice"⟩ sampleStore2
      ⟨"v1", "s2", none, none, none, none, some true⟩ sampleSession2 sampleVariant
      rfl (by decide) (by decide) (by decide) (by decide) (by decide) (by decide) (by decide)⟩

/-- C5: for the authenticated owner of `sessionId`, `deleteVariant` on
an id with no matching variant fails with `NOT_FOUND`; on a matching
variant it succeeds with a bare acknowledgment, after which
`listVariants` on that session no longer returns the variant's id and
repeating the same `deleteVariant` call fails with `NOT_FOUND`. -/
theorem c5_deleteVariant_not_idempotent
    (ctx : Ctx) (u : User) (σ : Store) (i : DeleteVariantInput) (S : Session)
    (hctx : ctx.user = some u) (hvalid : validDeleteVariant i = true)
    (hS : S ∈ σ.sessions) (hSid : S.id = i.sessionId) (hSuid : S.userId = u.id) :
    ((∀ v ∈ σ.variants, ¬(v.id = i.id ∧ v.sessionId = i.sessionId)) →
      deleteVariant ctx i σ = (.error variantNotFoundError, σ)) ∧
    ((∃ v ∈ σ.variants, v.id = i.id ∧ v.sessionId = i.sessionId) →
      ∃ σ' : Store,
        deleteVariant ctx i σ = (.ok (), σ') ∧
        σ'.sessions = σ.sessions ∧
        (∃ items : List Variant,
          listVariants ctx ⟨i.sessionId, none⟩ σ' = (.ok (items, items.length), σ') ∧
          ∀ v ∈ items, v.id ≠ i.id) ∧
        deleteVariant ctx i σ' = (.error variantNotFoundError, σ')) := by
  have hex : (σ.sessions.find? (fun s => s.id == i.sessionId && s.userId == u.id)).isSome := by
    rw [List.find?_isSome]
    exact ⟨S, hS, by simp [hSid, hSuid]⟩
  obtain ⟨S', hfindS⟩ := Option.isSome_iff_exists.mp hex
  have hok : getOwnedSession i.sessionId u.id σ = .ok S' := getOwnedSession_eq_ok hfindS
  have herr : ∀ τ : Store, τ.sessions = σ.sessions →
      (∀ v ∈ τ.variants, ¬(v.id = i.id ∧ v.sessionId = i.sessionId)) →
      deleteVariant ctx i τ = (.error variantNotFoundError, τ) := by
    intro τ hτ hno
    have hokτ : getOwnedSession i.sessionId u.id τ = .ok S' := by
      unfold getOwnedSession at hok ⊢
      rw [hτ]
      exact hok
    have hfil : τ.variants.filter (fun v => v.id == i.id && v.sessionId == i.sessionId) = [] := by
      rw [List.filter_eq_nil_iff]
      intro v hv
      simp only [Bool.and_eq_true, beq_iff_eq, not_and]
      intro h1 h2
      exact hno v hv ⟨h1, h2⟩
    simp [deleteVariant, requireUser_some hctx, hvalid, hokτ, hfil]
  constructor
  · exact herr σ rfl
  · rintro ⟨W, hW, hWid, hWses⟩
    refine ⟨{ σ with variants :=
      σ.variants.filter (fun v => !(v.id == i.id && v.sessionId == i.sessionId)) }, ?_, rfl, ?_, ?_⟩
    · have hmem : W ∈ σ.variants.filter (fun v => v.id == i.id && v.sessionId == i.sessionId) :=
        List.mem_filter.mpr ⟨hW, by simp [hWid, hWses]⟩
      have hlen : ((σ.variants.filter
          (fun v => v.id == i.id && v.sessionId == i.sessionId)).length == 0) = false := by
        have := List.ne_nil_of_mem hmem
        simp [List.length_eq_zero, this]
      simp [deleteVariant, requireUser_some hctx, hvalid, hok, hlen]
    · have hvL : validListVariants ⟨i.sessionId, none⟩ = true := by
        simp only [validDeleteVariant, Bool.and_eq_true, decide_eq_true_eq] at hvalid
        simp [validListVariants, hvalid.2]
      refine ⟨(σ.variants.filter (fun v => !(v.id == i.id && v.sessionId == i.sessionId))).filter
        (fun v => v.sessionId == i.sessionId), ?_, ?_⟩
      · simp [listVariants, requireUser_some hctx, hvL, getOwnedSession, hfindS,
          Bool.and_true]
      · intro v hv
        have h₁ := List.mem_filter.mp hv
        have h₂ := List.mem_filter.mp h₁.1
        intro hvid
        have hvses : v.sessionId = i.sessionId := by simpa using h₁.2
        have hfalse : (v.id == i.id && v.sessionId == i.sessionId) = false :=
          bool_not_true h₂.2
        simp [hvid, hvses] at hfalse
    · have hno : ∀ v ∈ σ.variants.filter
          (fun v => !(v.id == i.id && v.sessionId == i.sessionId)),
          ¬(v.id = i.id ∧ v.sessionId = i.sessionId) := by
        intro v hv hvm
        have h₂ := List.mem_filter.mp hv
        have hfalse : (v.id == i.id && v.sessionId == i.sessionId) = false :=
          bool_not_true h₂.2
        simp [hvm.1, hvm.2] at hfalse
      exact herr ⟨σ.sessions,
        σ.variants.filter (fun v => !(v.id == i.id && v.sessionId == i.sessionId))⟩ rfl hno

/-- Witness for C5: `alice` deletes variant `v1` of session `s2`; the
repeat delete fails. -/
theorem c5_deleteVariant_not_idempotent_witness :
    ((Ctx.mk (some ⟨"alice"⟩)).user = some ⟨"alice"⟩ ∧
      validDeleteVariant ⟨"v1", "s2"⟩ = true ∧
      sampleSession2 ∈ sampleStore2.sessions ∧ sampleSession2.id = "s2" ∧
      sampleSession2.userId = (User.mk "alice").id) ∧
    (((∀ v ∈ sampleStore2.variants, ¬(v.id = "v1" ∧ v.sessionId = "s2")) →
      deleteVariant ⟨some ⟨"alice"⟩⟩ ⟨"v1", "s2"⟩ sampleStore2
        = (.error variantNotFoundError, sampleStore2)) ∧
    ((∃ v ∈ sampleStore2.variants, v.id = "v1" ∧ v.sessionId = "s2") →
      ∃ σ' : Store,
        deleteVariant ⟨some ⟨"alice"⟩⟩ ⟨"v1", "s2"⟩ sampleStore2 = (.ok (), σ') ∧
        σ'.sessions = sampleStore2.sessions ∧
        (∃ items : List Variant,
          listVariants ⟨some ⟨"alice"⟩⟩ ⟨"s2", none⟩ σ' = (.ok (items, items.length), σ') ∧
          ∀ v ∈ items, v.id ≠ "v1") ∧
        deleteVariant ⟨some ⟨"alice"⟩⟩ ⟨"v1", "s2"⟩ σ' = (.error variantNotFoundError, σ'))) :=
  ⟨⟨rfl, by decide, by decide, by decide, by decide⟩,
    c5_deleteVariant_not_idempotent ⟨some ⟨"alice"⟩⟩ ⟨"alice"⟩ sampleStore2 ⟨"v1", "s2"⟩
      sampleSession2 rfl (by decide) (by decide) (by decide) (by decide)⟩

/-- C9: for an owned session with no favorite variants yet, a variant
created without `isFavorite` has `isFavorite = false` and
`listVariants(favoritesOnly = true)` returns zero items; after
`updateVariant` sets `isFavorite` to true on that variant the same call
returns exactly that variant; and in general (first conjunct, over any
store in which the caller owns the session) the favorites listing
returns precisely the session's variants with `isFavorite = true`, with
`total` the number of items. -/
theorem c9_favorites_listing
    (ctx : Ctx) (u : User) (σ : Store) (sid content fid : String) (now : Nat) (S : Session)
    (hctx : ctx.user = some u)
    (hsid : sid ≠ "") (hcontent : content ≠ "") (hfid : fid ≠ "")
    (hS : S ∈ σ.sessions) (hSid : S.id = sid) (hSuid : S.userId = u.id)
    (hnofav : ∀ v ∈ σ.variants, v.sessionId = sid → v.isFavorite = false)
    (hfresh : ∀ v ∈ σ.variants, v.id ≠ fid) :
    (∀ τ : Store, (∃ s ∈ τ.sessions, s.id = sid ∧ s.userId = u.id) →
      ∃ items : List Variant,
        listVariants ctx ⟨sid, some true⟩ τ = (.ok (items, items.length), τ) ∧
        ∀ v : Variant, v ∈ items ↔ (v ∈ τ.variants ∧ v.sessionId = sid ∧ v.isFavorite = true)) ∧
    (∃ (V₀ : Variant) (σ₁ : Store),
      createVariant ctx ⟨sid, none, none, none, content, none⟩ fid now σ = (.ok V₀, σ₁) ∧
      V₀.isFavorite = false ∧
      listVariants ctx ⟨sid, some true⟩ σ₁ = (.ok ([], 0), σ₁) ∧
      ∃ (V₁ : Variant) (σ₂ : Store),
        updateVariant ctx ⟨fid, sid, none, none, none, none, some true⟩ σ₁
          = (.ok (some V₁), σ₂) ∧
        V₁.isFavorite = true ∧ V₁.id = fid ∧ V₁.sessionId = sid ∧
        listVariants ctx ⟨sid, some true⟩ σ₂ = (.ok ([V₁], 1), σ₂)) := by
  have hvL : validListVariants ⟨sid, some true⟩ = true := by
    simpa [validListVariants] using string_length_ge_one hsid
  have hexσ : (σ.sessions.find? (fun s => s.id == sid && s.userId == u.id)).isSome := by
    rw [List.find?_isSome]
    exact ⟨S, hS, by simp [hSid, hSuid]⟩
  obtain ⟨S', hfindσ⟩ := Option.isSome_iff_exists.mp hexσ
  constructor
  · intro τ hτ
    obtain ⟨s, hs, hsid', hsuid'⟩ := hτ
    have hexτ : (τ.sessions.find? (fun s => s.id == sid && s.userId == u.id)).isSome := by
      rw [List.find?_isSome]
      exact ⟨s, hs, by simp [hsid', hsuid']⟩
    obtain ⟨S'', hfindτ⟩ := Option.isSome_iff_exists.mp hexτ
    refine ⟨τ.variants.filter (fun v => v.sessionId == sid && v.isFavorite), ?_, ?_⟩
    · simp [listVariants, requireUser_some hctx, hvL, getOwnedSession, hfindτ]
    · intro v
      simp [List.mem_filter, and_assoc]
  · refine ⟨⟨fid, sid, none, none, none, content, false, now⟩,
      ⟨σ.sessions, σ.variants ++ [⟨fid, sid, none, none, none, content, false, now⟩]⟩,
      ?_, rfl, ?_, ?_⟩
    · have hvC : validCreateVariant ⟨sid, none, none, none, content, none⟩ = true := by
        simp [validCreateVariant]
        exact ⟨string_length_ge_one hsid, string_length_ge_one hcontent⟩
      simp [createVariant, requireUser_some hctx, hvC, getOwnedSession, hfindσ]
    · have hfilt : (σ.variants ++
          [(⟨fid, sid, none, none, none, content, false, now⟩ : Variant)]).filter
          (fun v => v.sessionId == sid && v.isFavorite) = [] := by
        rw [List.filter_append]
        have h₁ : σ.variants.filter (fun v => v.sessionId == sid && v.isFavorite) = [] := by
          rw [List.filter_eq_nil_iff]
          intro v hv
          by_cases hses : v.sessionId = sid
          · simp [hses, hnofav v hv hses]
          · simp [hses]
        rw [h₁]
        simp
      simp [listVariants, requireUser_some hctx, hvL, getOwnedSession, hfindσ, hfilt]
    · have hvU : validUpdateVariant ⟨fid, sid, none, none, none, none, some true⟩ = true := by
        simp [validUpdateVariant]
        exact ⟨string_length_ge_one hfid, string_length_ge_one hsid⟩
      have hmemV : (⟨fid, sid, none, none, none, content, false, now⟩ : Variant)
          ∈ σ.variants ++ [⟨fid, sid, none, none, none, content, false, now⟩] := by
        simp
      have hexV : ((σ.variants ++
          [(⟨fid, sid, none, none, none, content, false, now⟩ : Variant)]).find?
          (fun v => v.id == fid && v.sessionId == sid)).isSome := by
        rw [List.find?_isSome]
        exact ⟨_, hmemV, by simp⟩
      obtain ⟨W', hfindV⟩ := Option.isSome_iff_exists.mp hexV
      have hmap : (σ.variants ++
          [(⟨fid, sid, none, none, none, content, false, now⟩ : Variant)]).map
          (fun v => if v.id == fid then
            patchVariant ⟨fid, sid, none, none, none, none, some true⟩ v else v)
          = σ.variants ++ [⟨fid, sid, none, none, none, content, true, now⟩] := by
        rw [List.map_append]
        have h₁ : σ.variants.map (fun v => if v.id == fid then
            patchVariant ⟨fid, sid, none, none, none, none, some true⟩ v else v)
            = σ.variants.map (fun v => v) := by
          apply List.map_congr_left
          intro v hv
          simp [hfresh v hv]
        rw [h₁, List.map_id']
        simp [patchVariant]
      have hhead : (((σ.variants ++
          [(⟨fid, sid, none, none, none, content, false, now⟩ : Variant)]).filter
          (fun v => v.id == fid)).map
          (patchVariant ⟨fid, sid, none, none, none, none, some true⟩)).head?
          = some ⟨fid, sid, none, none, none, content, true, now⟩ := by
        rw [List.filter_append]
        have h₁ : σ.variants.filter (fun v => v.id == fid) = [] := by
          rw [List.filter_eq_nil_iff]
          intro v hv
          simp [hfresh v hv]
        rw [h₁]
        simp [patchVariant]
      refine ⟨⟨fid, sid, none, none, none, content, true, now⟩,
        ⟨σ.sessions, σ.variants ++ [⟨fid, sid, none, none, none, content, true, now⟩]⟩,
        ?_, rfl, rfl, rfl, ?_⟩
      · have hok₁ : getOwnedSession sid u.id
            (⟨σ.sessions, σ.variants ++
              [⟨fid, sid, none, none, none, content, false, now⟩]⟩ : Store) = .ok S' :=
          @getOwnedSession_eq_ok
            ⟨σ.sessions, σ.variants ++ [⟨fid, sid, none, none, none, content, false, now⟩]⟩
            sid u.id S' hfindσ
        simp only [updateVariant, requireUser_some hctx, hvU, eq_self_iff_true, if_true,
          hok₁, hfindV, hmap, hhead]
      · have hfilt₂ : (σ.variants ++
            [(⟨fid, sid, none, none, none, content, true, now⟩ : Variant)]).filter
            (fun v => v.sessionId == sid && v.isFavorite)
            = [⟨fid, sid, none, none, none, content, true, now⟩] := by
          rw [List.filter_append]
          have h₁ : σ.variants.filter (fun v => v.sessionId == sid && v.isFavorite) = [] := by
            rw [List.filter_eq_nil_iff]
            intro v hv
            by_cases hses : v.sessionId = sid
            · simp [hses, hnofav v hv hses]
            · simp [hses]
          rw [h₁]
          simp
        simp [listVariants, requireUser_some hctx, hvL, getOwnedSession, hfindσ, hfilt₂]

/-- Witness for C9: `alice` creates variant `v9` in her session `s1`
(no favorites yet), then favorites it. -/
theorem c9_favorites_listing_witness :
    ((Ctx.mk (some ⟨"alice"⟩)).user = some ⟨"alice"⟩ ∧
      ("s1" : String) ≠ "" ∧ ("Variant A" : String) ≠ "" ∧ ("v9" : String) ≠ "" ∧
      sampleSession ∈ sampleStore.sessions ∧ sampleSession.id = "s1" ∧
      sampleSession.userId = (User.mk "alice").id ∧
      (∀ v ∈ sampleStore.variants, v.sessionId = "s1" → v.isFavorite = false) ∧
      (∀ v ∈ sampleStore.variants, v.id ≠ "v9")) ∧
    ((∀ τ : Store, (∃ s ∈ τ.sessions, s.id = "s1" ∧ s.userId = (User.mk "alice").id) →
      ∃ items : List Variant,
        listVariants ⟨some ⟨"alice"⟩⟩ ⟨"s1", some true⟩ τ = (.ok (items, items.length), τ) ∧
        ∀ v : Variant, v ∈ items ↔ (v ∈ τ.variants ∧ v.sessionId = "s1" ∧ v.isFavorite = true)) ∧
    (∃ (V₀ : Variant) (σ₁ : Store),
      createVariant ⟨some ⟨"alice"⟩⟩ ⟨"s1", none, none, none, "Variant A", none⟩ "v9" 3
        sampleStore = (.ok V₀, σ₁) ∧
      V₀.isFavorite = false ∧
      listVariants ⟨some ⟨"alice"⟩⟩ ⟨"s1", some true⟩ σ₁ = (.ok ([], 0), σ₁) ∧
      ∃ (V₁ : Variant) (σ₂ : Store),
        updateVariant ⟨some ⟨"alice"⟩⟩ ⟨"v9", "s1", none, none, none, none, some true⟩ σ₁
          = (.ok (some V₁), σ₂) ∧
        V₁.isFavorite = true ∧ V₁.id = "v9" ∧ V₁.sessionId = "s1" ∧
        listVariants ⟨some ⟨"alice"⟩⟩ ⟨"s1", some true⟩ σ₂ = (.ok ([V₁], 1), σ₂))) :=
  ⟨⟨rfl, by decide, by decide, by decide, by decide, by decide, by decide, by decide, by decide⟩,
    c9_favorites_listing ⟨some ⟨"alice"⟩⟩ ⟨"alice"⟩ sampleStore "s1" "Variant A" "v9" 3
      sampleSession rfl (by decide) (by decide) (by decide) (by decide) (by decide)
      (by decide) (by decide) (by decide)⟩

end Rephrase
